import Mathlib

/-!
Shallow embedding of `src/Source/Core/Tree/AutomationTrackNode.cpp`
(Helio Workstation): the VCS `TrackedItem` implementation of an
automation track node — its six delta placeholders, the
`getNumDeltas` / `getDelta` / `getDeltaData` interface, and the
`resetStateTo` checkout loop with its per-kind reset routines.

External collaborators that are not part of the source under `src/`
(the `SerializedData` property-tree primitive, `juce::Colour`,
the `VCS::Delta` record, the `AutomationSequence` / `Pattern`
collections and the `MidiTrackNode` scalar setters) are modelled from
the spec, as marked on each definition.

An assertion-class contract violation (`jassert` / `jassertfalse`) is
made observable as an explicit boolean component of the affected
operation's result: `true` means the assertion fired.
-/

namespace Helio

/-- A property value of the serialized tree (the `juce::var` variant),
restricted to the value shapes this translation unit uses: void,
string, and integer. -/
inductive Var where
  | void : Var
  | str : String → Var
  | int : Int → Var
deriving DecidableEq, Repr

/-- `juce::var` → `String` conversion: a void var reads as the empty
string, an integer renders in decimal. -/
def Var.asString : Var → String
  | Var.void => ""
  | Var.str s => s
  | Var.int n => toString n

/-- `juce::var` → `int` conversion: a void var reads as `0`, a string
parses as a decimal integer (`0` when unparsable). -/
def Var.asInt : Var → Int
  | Var.void => 0
  | Var.str s => (s.toInt?).getD 0
  | Var.int n => n

/-- Modelled from the spec: the transport-neutral Serialized State — a
tree value with a type tag, ordered named properties and ordered child
nodes, supporting `setProperty` / `getProperty` / `appendChild` /
child iteration filtered by type tag (§6). -/
structure SerializedData where
  tag : String
  props : List (String × Var)
  children : List SerializedData
deriving Repr

/-- The invalid/empty tree produced by `SerializedData{}`. -/
def SerializedData.empty : SerializedData := ⟨"", [], []⟩

/-- `hasType`: compare the node's own type tag. -/
def SerializedData.hasType (d : SerializedData) (t : String) : Bool :=
  d.tag == t

/-- `setProperty`: replace the named property if present, else append
it, keeping property order. -/
def SerializedData.setProperty (d : SerializedData) (name : String) (v : Var) :
    SerializedData :=
  if d.props.any (fun p => p.1 == name) then
    { d with props := d.props.map (fun p => if p.1 == name then (name, v) else p) }
  else
    { d with props := d.props ++ [(name, v)] }

/-- `getProperty`: the named property's value, void when absent. -/
def SerializedData.getProperty (d : SerializedData) (name : String) : Var :=
  ((d.props.find? (fun p => p.1 == name)).map Prod.snd).getD Var.void

/-- `appendChild`: append one child node. -/
def SerializedData.appendChild (d : SerializedData) (c : SerializedData) :
    SerializedData :=
  { d with children := d.children ++ [c] }

/-- Modelled from the spec: the stable kind identifier of the track-path
delta (`Serialization::VCS::MidiTrackDeltas::trackPath`, §3). -/
def MidiTrackDeltas.trackPath : String := "path"

/-- Modelled from the spec: the kind identifier of the track-colour
delta (`MidiTrackDeltas::trackColour`, §3). -/
def MidiTrackDeltas.trackColour : String := "colour"

/-- Modelled from the spec: the kind identifier of the track-instrument
delta (`MidiTrackDeltas::trackInstrument`, §3). -/
def MidiTrackDeltas.trackInstrument : String := "instrument"

/-- Modelled from the spec: the kind identifier of the track-controller
delta (`MidiTrackDeltas::trackController`, §3). -/
def MidiTrackDeltas.trackController : String := "controller"

/-- Modelled from the spec: the kind identifier of the events-added
structural delta (`AutoSequenceDeltas::eventsAdded`, §3). -/
def AutoSequenceDeltas.eventsAdded : String := "events-added"

/-- Modelled from the spec: the kind identifier of the clips-added
structural delta (`PatternDeltas::clipsAdded`, §3). -/
def PatternDeltas.clipsAdded : String := "clips-added"

/-- Modelled from the spec: the property name under which every scalar
delta payload stores its single value (`Serialization::VCS::delta`). -/
def Serialization.VCS.delta : String := "delta"

/-- Modelled from the spec: the type tag of a serialized automation
event child node (`Serialization::Midi::automationEvent`). -/
def Serialization.Midi.automationEvent : String := "automationEvent"

/-- Modelled from the spec: the type tag of a serialized clip child
node (`Serialization::Midi::clip`). -/
def Serialization.Midi.clip : String := "clip"

/-- Modelled from the spec: `juce::Colour` is used here only as a value
encoded as a string that round-trips losslessly through
`Colour::fromString` / `Colour::toString` (§6). -/
structure Colour where
  encoded : String
deriving DecidableEq, Repr

/-- `Colour::fromString`. -/
def Colour.fromString (s : String) : Colour := ⟨s⟩

/-- `Colour::toString`. -/
def Colour.toString (c : Colour) : String := c.encoded

/-- Modelled from the spec: a `VCS::Delta` record — an immutable kind
(`type`), a mutable human-readable description, and an opaque payload
placeholder populated only when requested (§3); in this entity the
placeholder stays empty and payloads are computed on demand by
`getDeltaData`. The description is kept in rendered form (the
`DeltaDescription` template with its numeric parameter substituted). -/
structure Delta where
  description : String
  type : String
  payload : SerializedData
deriving Repr

/-- `Delta::hasType`: compare the delta's kind. -/
def Delta.hasType (d : Delta) (t : String) : Bool :=
  d.type == t

/-- `Delta::setDescription`. -/
def Delta.setDescription (d : Delta) (s : String) : Delta :=
  { d with description := s }

/-- Modelled from the spec: a domain item appearing as a
structural-delta child provides its own serialize/deserialize,
round-tripping losslessly (§6); an automation event is kept as its
serialized form. -/
structure AutomationEvent where
  data : SerializedData
deriving Repr

/-- The event's own serialization. -/
def AutomationEvent.serialize (e : AutomationEvent) : SerializedData := e.data

/-- Build an event from its serialized form. -/
def AutomationEvent.deserialize (d : SerializedData) : AutomationEvent := ⟨d⟩

/-- Modelled from the spec: a clip, the domain item of the pattern's
structural delta, kept as its serialized form (§6). -/
structure Clip where
  data : SerializedData
deriving Repr

/-- The clip's own serialization. -/
def Clip.serialize (c : Clip) : SerializedData := c.data

/-- Build a clip from its serialized form. -/
def Clip.deserialize (d : SerializedData) : Clip := ⟨d⟩

/-- Modelled from the spec: the `AutomationSequence` backing the
events delta — an ordered collection of events plus a derived
beat-range bound recomputed by `updateBeatRange` (§4.2, §4.4). The
bound itself is derived floating-point domain state outside this core,
so only the number of recomputations is tracked, which is what the
"recomputed once, not per-item" contract is about. -/
structure AutomationSequence where
  events : List AutomationEvent
  beatRangeRecomputeCount : Nat
deriving Repr

/-- `MidiSequence::size`. -/
def AutomationSequence.size (s : AutomationSequence) : Nat := s.events.length

/-- `MidiSequence::reset`: clear the collection. -/
def AutomationSequence.reset (s : AutomationSequence) : AutomationSequence :=
  { s with events := [] }

/-- Modelled from the spec: `checkoutEvent<AutomationEvent>` —
deserialize one child node into a new event and insert it, without
recomputing the derived beat range (§4.2: the recomputation happens
afterward, once). -/
def AutomationSequence.checkoutEvent (s : AutomationSequence) (d : SerializedData) :
    AutomationSequence :=
  { s with events := s.events ++ [AutomationEvent.deserialize d] }

/-- Modelled from the spec: `updateBeatRange` recomputes the derived
beat-range bound from the current event list (§4.4); the boolean is
the notification flag of the source call. -/
def AutomationSequence.updateBeatRange (s : AutomationSequence) (_shouldNotify : Bool) :
    AutomationSequence :=
  { s with beatRangeRecomputeCount := s.beatRangeRecomputeCount + 1 }

/-- Modelled from the spec: the `Pattern` backing the clips delta — an
ordered collection of clips (§3). -/
structure Pattern where
  clips : List Clip
deriving Repr

/-- `Pattern::size`. -/
def Pattern.size (p : Pattern) : Nat := p.clips.length

/-- `Pattern::reset`: clear the collection. -/
def Pattern.reset (_p : Pattern) : Pattern := ⟨[]⟩

/-- Modelled from the spec: `checkoutClip` — deserialize one child node
into a new clip and insert it. -/
def Pattern.checkoutClip (p : Pattern) (d : SerializedData) : Pattern :=
  { p with clips := p.clips ++ [Clip.deserialize d] }

/-- The observable state of an `AutomationTrackNode` behind its six
delta kinds: track path, colour, instrument id, controller number,
event list and clip list. -/
structure ObservableState where
  name : String
  colour : Colour
  instrumentId : String
  controllerNumber : Int
  events : List AutomationEvent
  clips : List Clip
deriving Repr

/-- The `AutomationTrackNode` entity: the scalar track properties
inherited from `MidiTrackNode`, the event sequence, the clip pattern,
the six `VCS::Delta` placeholders created at construction, and a count
of change notifications dispatched by the scalar setters (modelled
from the spec: each scalar setter dispatches a change notification,
which is what the colour routine's skip-if-unchanged check avoids,
§4.2). -/
structure AutomationTrackNode where
  name : String
  colour : Colour
  instrumentId : String
  controllerNumber : Int
  sequence : AutomationSequence
  pattern : Pattern
  deltas : List Delta
  dispatchedChanges : Nat
deriving Repr

/-- `AutomationTrackNode::AutomationTrackNode(name)`: fresh empty
sequence and pattern, and the six delta placeholders added in declared
order, each with an empty description and empty payload. Scalar
property defaults are those of a fresh `MidiTrackNode` (modelled from
the spec, which leaves them to the domain entity). -/
def AutomationTrackNode.create (name : String) : AutomationTrackNode :=
  { name := name
    colour := Colour.fromString ""
    instrumentId := ""
    controllerNumber := 0
    sequence := ⟨[], 0⟩
    pattern := ⟨[]⟩
    deltas :=
      [ ⟨"", MidiTrackDeltas.trackPath, SerializedData.empty⟩
      , ⟨"", MidiTrackDeltas.trackColour, SerializedData.empty⟩
      , ⟨"", MidiTrackDeltas.trackInstrument, SerializedData.empty⟩
      , ⟨"", MidiTrackDeltas.trackController, SerializedData.empty⟩
      , ⟨"", AutoSequenceDeltas.eventsAdded, SerializedData.empty⟩
      , ⟨"", PatternDeltas.clipsAdded, SerializedData.empty⟩ ]
    dispatchedChanges := 0 }

/-- `getTrackName` (the track path). -/
def AutomationTrackNode.getTrackName (s : AutomationTrackNode) : String := s.name

/-- `getTrackColour`. -/
def AutomationTrackNode.getTrackColour (s : AutomationTrackNode) : Colour := s.colour

/-- `getTrackInstrumentId`. -/
def AutomationTrackNode.getTrackInstrumentId (s : AutomationTrackNode) : String :=
  s.instrumentId

/-- `getTrackControllerNumber`. -/
def AutomationTrackNode.getTrackControllerNumber (s : AutomationTrackNode) : Int :=
  s.controllerNumber

/-- Modelled from the spec: `MidiTrackNode::setXPath` — set the track
path and dispatch a change notification; the boolean suppresses
undo-step recording, not the notification (§4.4, §6). No
skip-if-unchanged check (§4.2). -/
def AutomationTrackNode.setXPath (s : AutomationTrackNode) (path : String)
    (_undoable : Bool) : AutomationTrackNode :=
  { s with name := path, dispatchedChanges := s.dispatchedChanges + 1 }

/-- Modelled from the spec: `setTrackColour` — set the colour and
dispatch a change notification; the boolean suppresses undo-step
recording (§4.4, §6). -/
def AutomationTrackNode.setTrackColour (s : AutomationTrackNode) (c : Colour)
    (_undoable : Bool) : AutomationTrackNode :=
  { s with colour := c, dispatchedChanges := s.dispatchedChanges + 1 }

/-- Modelled from the spec: `setTrackInstrumentId` — set the instrument
id and dispatch a change notification; no skip-if-unchanged check
(§4.2, §6). -/
def AutomationTrackNode.setTrackInstrumentId (s : AutomationTrackNode) (i : String)
    (_undoable : Bool) : AutomationTrackNode :=
  { s with instrumentId := i, dispatchedChanges := s.dispatchedChanges + 1 }

/-- Modelled from the spec: `setTrackControllerNumber` — set the
controller number and dispatch a change notification (§6). -/
def AutomationTrackNode.setTrackControllerNumber (s : AutomationTrackNode) (n : Int)
    (_undoable : Bool) : AutomationTrackNode :=
  { s with controllerNumber := n, dispatchedChanges := s.dispatchedChanges + 1 }

/-- Projection to the observable state behind the six delta kinds. -/
def AutomationTrackNode.observableState (s : AutomationTrackNode) : ObservableState :=
  ⟨s.name, s.colour, s.instrumentId, s.controllerNumber,
    s.sequence.events, s.pattern.clips⟩

/-- `AutomationTrackNode::getNumDeltas`. -/
def AutomationTrackNode.getNumDeltas (s : AutomationTrackNode) : Nat :=
  s.deltas.length

/-- The description-refresh step inside
`AutomationTrackNode::getDelta`: when the delta is the events-added
(resp. clips-added) one, recompute its description from the live
sequence (resp. pattern) size — `"empty sequence"` when empty, the
rendered `DeltaDescription("{x} events", numEvents)` otherwise; any
other delta is left as is. -/
def AutomationTrackNode.refreshDelta (s : AutomationTrackNode) (d : Delta) : Delta :=
  if d.hasType AutoSequenceDeltas.eventsAdded then
    let numEvents := s.sequence.size
    if numEvents == 0 then
      d.setDescription "empty sequence"
    else
      d.setDescription (toString numEvents ++ " events")
  else if d.hasType PatternDeltas.clipsAdded then
    let numClips := s.pattern.size
    if numClips == 0 then
      d.setDescription "empty pattern"
    else
      d.setDescription (toString numClips ++ " clips")
  else d

/-- `AutomationTrackNode::getDelta(index)`: refresh the stored delta's
description from live state (the refreshed delta is written back to
the owning array — in C++ it is mutated in place) and return it. An
out-of-range index is a contract violation, modelled as `none` with
the state unchanged. -/
def AutomationTrackNode.getDelta (s : AutomationTrackNode) (index : Nat) :
    AutomationTrackNode × Option Delta :=
  match s.deltas[index]? with
  | none => (s, none)
  | some d =>
    let d' := s.refreshDelta d
    ({ s with deltas := s.deltas.set index d' }, some d')

/-- `serializePathDelta`: a tree tagged `trackPath` carrying the track
name under the single `delta` property. -/
def AutomationTrackNode.serializePathDelta (s : AutomationTrackNode) : SerializedData :=
  (SerializedData.mk MidiTrackDeltas.trackPath [] []).setProperty
    Serialization.VCS.delta (Var.str s.getTrackName)

/-- `serializeColourDelta`: a tree tagged `trackColour` carrying the
colour's string encoding under the single `delta` property. -/
def AutomationTrackNode.serializeColourDelta (s : AutomationTrackNode) : SerializedData :=
  (SerializedData.mk MidiTrackDeltas.trackColour [] []).setProperty
    Serialization.VCS.delta (Var.str s.getTrackColour.toString)

/-- `serializeInstrumentDelta`: a tree tagged `trackInstrument`
carrying the instrument id under the single `delta` property. -/
def AutomationTrackNode.serializeInstrumentDelta (s : AutomationTrackNode) :
    SerializedData :=
  (SerializedData.mk MidiTrackDeltas.trackInstrument [] []).setProperty
    Serialization.VCS.delta (Var.str s.getTrackInstrumentId)

/-- `serializeControllerDelta`: a tree tagged `trackController`
carrying the controller number under the single `delta` property. -/
def AutomationTrackNode.serializeControllerDelta (s : AutomationTrackNode) :
    SerializedData :=
  (SerializedData.mk MidiTrackDeltas.trackController [] []).setProperty
    Serialization.VCS.delta (Var.int s.getTrackControllerNumber)

/-- `serializeEventsDelta`: a tree tagged `eventsAdded` with one
appended child per contained event, each produced by that event's own
serialization. -/
def AutomationTrackNode.serializeEventsDelta (s : AutomationTrackNode) : SerializedData :=
  s.sequence.events.foldl
    (fun tree event => tree.appendChild event.serialize)
    (SerializedData.mk AutoSequenceDeltas.eventsAdded [] [])

/-- Modelled from the spec: `serializeClipsDelta` (defined outside this
translation unit) — a tree tagged `clipsAdded` with one appended child
per contained clip, each produced by that clip's own serialization
(§4.2). -/
def AutomationTrackNode.serializeClipsDelta (s : AutomationTrackNode) : SerializedData :=
  s.pattern.clips.foldl
    (fun tree c => tree.appendChild c.serialize)
    (SerializedData.mk PatternDeltas.clipsAdded [] [])

/-- `AutomationTrackNode::getDeltaData(deltaIndex)`: dispatch on the
stored delta's kind to the matching serializer. A kind matching none
of the six branches reaches `jassertfalse` and returns the empty tree:
the boolean result component is `true` exactly when that contract
violation fires (an out-of-range index is likewise a contract
violation). -/
def AutomationTrackNode.getDeltaData (s : AutomationTrackNode) (deltaIndex : Nat) :
    SerializedData × Bool :=
  match s.deltas[deltaIndex]? with
  | none => (SerializedData.empty, true)
  | some d =>
    if d.hasType MidiTrackDeltas.trackPath then
      (s.serializePathDelta, false)
    else if d.hasType MidiTrackDeltas.trackColour then
      (s.serializeColourDelta, false)
    else if d.hasType MidiTrackDeltas.trackInstrument then
      (s.serializeInstrumentDelta, false)
    else if d.hasType MidiTrackDeltas.trackController then
      (s.serializeControllerDelta, false)
    else if d.hasType AutoSequenceDeltas.eventsAdded then
      (s.serializeEventsDelta, false)
    else if d.hasType PatternDeltas.clipsAdded then
      (s.serializeClipsDelta, false)
    else
      (SerializedData.empty, true)

/-- `resetPathDelta`: `jassert` the payload tag (the boolean result is
`true` when that assertion fires), decode the `delta` property as a
string and apply it through `setXPath` with undo recording
suppressed. -/
def AutomationTrackNode.resetPathDelta (s : AutomationTrackNode)
    (state : SerializedData) : AutomationTrackNode × Bool :=
  let asserted := !(state.hasType MidiTrackDeltas.trackPath)
  let path := (state.getProperty Serialization.VCS.delta).asString
  (s.setXPath path false, asserted)

/-- `resetColourDelta`: `jassert` the payload tag, decode the `delta`
property through `Colour::fromString`, and apply it through
`setTrackColour` only when it differs from the current track colour. -/
def AutomationTrackNode.resetColourDelta (s : AutomationTrackNode)
    (state : SerializedData) : AutomationTrackNode × Bool :=
  let asserted := !(state.hasType MidiTrackDeltas.trackColour)
  let colourString := (state.getProperty Serialization.VCS.delta).asString
  let colour := Colour.fromString colourString
  if colour ≠ s.getTrackColour then
    (s.setTrackColour colour false, asserted)
  else
    (s, asserted)

/-- `resetInstrumentDelta`: `jassert` the payload tag, decode the
`delta` property as a string and apply it through
`setTrackInstrumentId` unconditionally. -/
def AutomationTrackNode.resetInstrumentDelta (s : AutomationTrackNode)
    (state : SerializedData) : AutomationTrackNode × Bool :=
  let asserted := !(state.hasType MidiTrackDeltas.trackInstrument)
  let instrumentId := (state.getProperty Serialization.VCS.delta).asString
  (s.setTrackInstrumentId instrumentId false, asserted)

/-- `resetControllerDelta`: `jassert` the payload tag, decode the
`delta` property as an integer and apply it through
`setTrackControllerNumber`. -/
def AutomationTrackNode.resetControllerDelta (s : AutomationTrackNode)
    (state : SerializedData) : AutomationTrackNode × Bool :=
  let asserted := !(state.hasType MidiTrackDeltas.trackController)
  let ccNumber := (state.getProperty Serialization.VCS.delta).asInt
  (s.setTrackControllerNumber ccNumber false, asserted)

/-- `resetEventsDelta`: `jassert` the payload tag, clear the sequence,
check out one event per child node whose tag is the automation-event
tag (in document order, other children skipped by the
`forEachChildWithType` iteration), then recompute the beat range once. -/
def AutomationTrackNode.resetEventsDelta (s : AutomationTrackNode)
    (state : SerializedData) : AutomationTrackNode × Bool :=
  let asserted := !(state.hasType AutoSequenceDeltas.eventsAdded)
  let seq0 := s.sequence.reset
  let seq1 := state.children.foldl
    (fun sq e =>
      if e.hasType Serialization.Midi.automationEvent then sq.checkoutEvent e else sq)
    seq0
  let seq2 := seq1.updateBeatRange false
  ({ s with sequence := seq2 }, asserted)

/-- Modelled from the spec: `resetClipsDelta` (defined outside this
translation unit) — clear the pattern, then check out one clip per
child node carrying the clip tag, in document order (§4.2). -/
def AutomationTrackNode.resetClipsDelta (s : AutomationTrackNode)
    (state : SerializedData) : AutomationTrackNode × Bool :=
  let asserted := !(state.hasType PatternDeltas.clipsAdded)
  let p0 := s.pattern.reset
  let p1 := state.children.foldl
    (fun p e => if e.hasType Serialization.Midi.clip then p.checkoutClip e else p)
    p0
  ({ s with pattern := p1 }, asserted)

/-- A foreign `VCS::TrackedItem` as `resetStateTo` consumes it through
the virtual interface: for each index, the `Delta` returned by
`getDelta(i)` paired with the `SerializedData` returned by
`getDeltaData(i)`. -/
structure ForeignItem where
  items : List (Delta × SerializedData)

/-- `ForeignItem.getNumDeltas`. -/
def ForeignItem.getNumDeltas (f : ForeignItem) : Nat := f.items.length

/-- The body of `resetStateTo`'s loop for one foreign delta: dispatch
on the foreign delta's kind to the matching local reset routine; a
kind matching none of the six branches falls through the if/else-if
chain with no effect and no assertion. The boolean accumulates whether
any reset routine's `jassert` fired. -/
def AutomationTrackNode.resetStateStep (acc : AutomationTrackNode × Bool)
    (item : Delta × SerializedData) : AutomationTrackNode × Bool :=
  let newDelta := item.1
  let newDeltaData := item.2
  if newDelta.hasType MidiTrackDeltas.trackPath then
    let r := acc.1.resetPathDelta newDeltaData
    (r.1, acc.2 || r.2)
  else if newDelta.hasType MidiTrackDeltas.trackColour then
    let r := acc.1.resetColourDelta newDeltaData
    (r.1, acc.2 || r.2)
  else if newDelta.hasType MidiTrackDeltas.trackInstrument then
    let r := acc.1.resetInstrumentDelta newDeltaData
    (r.1, acc.2 || r.2)
  else if newDelta.hasType MidiTrackDeltas.trackController then
    let r := acc.1.resetControllerDelta newDeltaData
    (r.1, acc.2 || r.2)
  else if newDelta.hasType AutoSequenceDeltas.eventsAdded then
    let r := acc.1.resetEventsDelta newDeltaData
    (r.1, acc.2 || r.2)
  else if newDelta.hasType PatternDeltas.clipsAdded then
    let r := acc.1.resetClipsDelta newDeltaData
    (r.1, acc.2 || r.2)
  else
    acc

/-- `AutomationTrackNode::resetStateTo(newState)`: for every index of
the foreign item in order, fetch its delta and delta data and dispatch
by kind to the matching local reset routine. The boolean result is
`true` when some reset routine's `jassert` fired along the way. -/
def AutomationTrackNode.resetStateTo (s : AutomationTrackNode)
    (newState : ForeignItem) : AutomationTrackNode × Bool :=
  newState.items.foldl AutomationTrackNode.resetStateStep (s, false)

/-- The six delta kinds declared by `AutomationTrackNode`, in
construction order. -/
def canonicalKinds : List String :=
  [ MidiTrackDeltas.trackPath
  , MidiTrackDeltas.trackColour
  , MidiTrackDeltas.trackInstrument
  , MidiTrackDeltas.trackController
  , AutoSequenceDeltas.eventsAdded
  , PatternDeltas.clipsAdded ]

/-- The payload of the last foreign item of kind `k`, if any: the item
whose reset routine wins when `resetStateTo` processes the list in
order. -/
def lastPayloadFor : List (Delta × SerializedData) → String → Option SerializedData
  | [], _ => none
  | it :: rest, k =>
    match lastPayloadFor rest k with
    | some d => some d
    | none => if it.1.hasType k then some it.2 else none

lemma lastPayloadFor_eq_none {items : List (Delta × SerializedData)} {k : String}
    (h : ∀ it ∈ items, ¬ it.1.type = k) : lastPayloadFor items k = none := by
  induction items with
  | nil => rfl
  | cons it rest ih =>
    have hit : ¬ it.1.type = k := h it (List.mem_cons_self _ _)
    have hrest := ih (fun x hx => h x (List.mem_cons_of_mem _ hx))
    simp [lastPayloadFor, hrest, Delta.hasType, hit]

lemma lastPayloadFor_eq_some {items : List (Delta × SerializedData)}
    {it : Delta × SerializedData} {k : String}
    (hmem : it ∈ items) (hk : it.1.type = k)
    (hnd : (items.map (fun x => x.1.type)).Nodup) :
    lastPayloadFor items k = some it.2 := by
  induction items with
  | nil => cases hmem
  | cons j rest ih =>
    rw [List.map_cons, List.nodup_cons] at hnd
    rcases List.mem_cons.mp hmem with hj | hmem'
    · subst hj
      have habs : ∀ x ∈ rest, ¬ x.1.type = k := by
        intro x hx hxk
        apply hnd.1
        rw [hk, ← hxk]
        exact List.mem_map_of_mem (fun y => y.1.type) hx
      simp [lastPayloadFor, lastPayloadFor_eq_none habs, Delta.hasType, hk]
    · simp [lastPayloadFor, ih hmem' hnd.2]

lemma checkoutEvent_foldl (cs : List SerializedData) (sq : AutomationSequence) :
    (cs.foldl
      (fun sq e =>
        if e.hasType Serialization.Midi.automationEvent then sq.checkoutEvent e else sq)
      sq) =
    ⟨sq.events ++
        (cs.filter (fun c => c.hasType Serialization.Midi.automationEvent)).map
          AutomationEvent.deserialize,
      sq.beatRangeRecomputeCount⟩ := by
  induction cs generalizing sq with
  | nil => simp
  | cons c rest ih =>
    by_cases hc : c.hasType Serialization.Midi.automationEvent
    · simp only [List.foldl_cons, hc, if_true, ih]
      simp [AutomationSequence.checkoutEvent, List.filter_cons, hc]
    · simp only [List.foldl_cons, hc, if_false, ih, Bool.false_eq_true]
      simp [List.filter_cons, hc]

lemma resetEventsDelta_fst_events (s : AutomationTrackNode) (d : SerializedData) :
    ((s.resetEventsDelta d).1).sequence.events =
      (d.children.filter (fun c => c.hasType Serialization.Midi.automationEvent)).map
        AutomationEvent.deserialize := by
  simp [AutomationTrackNode.resetEventsDelta, checkoutEvent_foldl,
    AutomationSequence.reset, AutomationSequence.updateBeatRange]

lemma resetEventsDelta_fst_count (s : AutomationTrackNode) (d : SerializedData) :
    ((s.resetEventsDelta d).1).sequence.beatRangeRecomputeCount =
      s.sequence.beatRangeRecomputeCount + 1 := by
  simp [AutomationTrackNode.resetEventsDelta, checkoutEvent_foldl,
    AutomationSequence.reset, AutomationSequence.updateBeatRange]

lemma checkoutClip_foldl (cs : List SerializedData) (p : Pattern) :
    (cs.foldl
      (fun p e => if e.hasType Serialization.Midi.clip then p.checkoutClip e else p) p) =
    ⟨p.clips ++
        (cs.filter (fun c => c.hasType Serialization.Midi.clip)).map Clip.deserialize⟩ := by
  induction cs generalizing p with
  | nil => simp
  | cons c rest ih =>
    by_cases hc : c.hasType Serialization.Midi.clip
    · simp only [List.foldl_cons, hc, if_true, ih]
      simp [Pattern.checkoutClip, List.filter_cons, hc]
    · simp only [List.foldl_cons, hc, if_false, ih, Bool.false_eq_true]
      simp [List.filter_cons, hc]

lemma resetClipsDelta_fst_clips (s : AutomationTrackNode) (d : SerializedData) :
    ((s.resetClipsDelta d).1).pattern.clips =
      (d.children.filter (fun c => c.hasType Serialization.Midi.clip)).map
        Clip.deserialize := by
  simp [AutomationTrackNode.resetClipsDelta, checkoutClip_foldl, Pattern.reset]

lemma resetStateStep_fst_name (s : AutomationTrackNode) (b : Bool)
    (it : Delta × SerializedData) :
    ((AutomationTrackNode.resetStateStep (s, b) it).1).name =
      if it.1.hasType MidiTrackDeltas.trackPath then
        (it.2.getProperty Serialization.VCS.delta).asString
      else s.name := by
  simp only [AutomationTrackNode.resetStateStep, AutomationTrackNode.resetPathDelta,
    AutomationTrackNode.resetColourDelta, AutomationTrackNode.resetInstrumentDelta,
    AutomationTrackNode.resetControllerDelta, AutomationTrackNode.resetEventsDelta,
    AutomationTrackNode.resetClipsDelta, AutomationTrackNode.setXPath,
    AutomationTrackNode.setTrackColour, AutomationTrackNode.setTrackInstrumentId,
    AutomationTrackNode.setTrackControllerNumber]
  split_ifs <;> first | rfl | (exfalso; simp_all [Delta.hasType, beq_iff_eq, MidiTrackDeltas.trackPath,
        MidiTrackDeltas.trackColour, MidiTrackDeltas.trackInstrument,
        MidiTrackDeltas.trackController, AutoSequenceDeltas.eventsAdded,
        PatternDeltas.clipsAdded])

lemma resetStateStep_fst_colour (s : AutomationTrackNode) (b : Bool)
    (it : Delta × SerializedData) :
    ((AutomationTrackNode.resetStateStep (s, b) it).1).colour =
      if it.1.hasType MidiTrackDeltas.trackColour then
        Colour.fromString ((it.2.getProperty Serialization.VCS.delta).asString)
      else s.colour := by
  by_cases h2 : it.1.hasType MidiTrackDeltas.trackColour
  · simp only [Delta.hasType, beq_iff_eq] at h2
    have e1 : it.1.hasType MidiTrackDeltas.trackPath = false := by
      simp [Delta.hasType, h2]; decide
    have e2 : it.1.hasType MidiTrackDeltas.trackColour = true := by
      simp [Delta.hasType, h2]
    simp only [AutomationTrackNode.resetStateStep, e1, e2, Bool.false_eq_true,
      if_false, if_true, AutomationTrackNode.resetColourDelta,
      AutomationTrackNode.setTrackColour, AutomationTrackNode.getTrackColour]
    split_ifs with hg
    · rfl
    · exact (not_not.mp hg).symm
  · have e2 : it.1.hasType MidiTrackDeltas.trackColour = false := by
      simpa using h2
    simp only [AutomationTrackNode.resetStateStep, e2, Bool.false_eq_true, if_false,
      AutomationTrackNode.resetPathDelta, AutomationTrackNode.resetColourDelta,
      AutomationTrackNode.resetInstrumentDelta, AutomationTrackNode.resetControllerDelta,
      AutomationTrackNode.resetEventsDelta, AutomationTrackNode.resetClipsDelta,
      AutomationTrackNode.setXPath, AutomationTrackNode.setTrackColour,
      AutomationTrackNode.setTrackInstrumentId,
      AutomationTrackNode.setTrackControllerNumber]
    split_ifs <;> rfl

lemma resetStateStep_fst_instrumentId (s : AutomationTrackNode) (b : Bool)
    (it : Delta × SerializedData) :
    ((AutomationTrackNode.resetStateStep (s, b) it).1).instrumentId =
      if it.1.hasType MidiTrackDeltas.trackInstrument then
        (it.2.getProperty Serialization.VCS.delta).asString
      else s.instrumentId := by
  simp only [AutomationTrackNode.resetStateStep, AutomationTrackNode.resetPathDelta,
    AutomationTrackNode.resetColourDelta, AutomationTrackNode.resetInstrumentDelta,
    AutomationTrackNode.resetControllerDelta, AutomationTrackNode.resetEventsDelta,
    AutomationTrackNode.resetClipsDelta, AutomationTrackNode.setXPath,
    AutomationTrackNode.setTrackColour, AutomationTrackNode.setTrackInstrumentId,
    AutomationTrackNode.setTrackControllerNumber]
  split_ifs <;> first | rfl | (exfalso; simp_all [Delta.hasType, beq_iff_eq, MidiTrackDeltas.trackPath,
        MidiTrackDeltas.trackColour, MidiTrackDeltas.trackInstrument,
        MidiTrackDeltas.trackController, AutoSequenceDeltas.eventsAdded,
        PatternDeltas.clipsAdded])

lemma resetStateStep_fst_controllerNumber (s : AutomationTrackNode) (b : Bool)
    (it : Delta × SerializedData) :
    ((AutomationTrackNode.resetStateStep (s, b) it).1).controllerNumber =
      if it.1.hasType MidiTrackDeltas.trackController then
        (it.2.getProperty Serialization.VCS.delta).asInt
      else s.controllerNumber := by
  simp only [AutomationTrackNode.resetStateStep, AutomationTrackNode.resetPathDelta,
    AutomationTrackNode.resetColourDelta, AutomationTrackNode.resetInstrumentDelta,
    AutomationTrackNode.resetControllerDelta, AutomationTrackNode.resetEventsDelta,
    AutomationTrackNode.resetClipsDelta, AutomationTrackNode.setXPath,
    AutomationTrackNode.setTrackColour, AutomationTrackNode.setTrackInstrumentId,
    AutomationTrackNode.setTrackControllerNumber]
  split_ifs <;> first | rfl | (exfalso; simp_all [Delta.hasType, beq_iff_eq, MidiTrackDeltas.trackPath,
        MidiTrackDeltas.trackColour, MidiTrackDeltas.trackInstrument,
        MidiTrackDeltas.trackController, AutoSequenceDeltas.eventsAdded,
        PatternDeltas.clipsAdded])

lemma resetStateStep_fst_events (s : AutomationTrackNode) (b : Bool)
    (it : Delta × SerializedData) :
    ((AutomationTrackNode.resetStateStep (s, b) it).1).sequence.events =
      if it.1.hasType AutoSequenceDeltas.eventsAdded then
        (it.2.children.filter (fun c => c.hasType Serialization.Midi.automationEvent)).map
          AutomationEvent.deserialize
      else s.sequence.events := by
  by_cases h5 : it.1.hasType AutoSequenceDeltas.eventsAdded
  · simp only [Delta.hasType, beq_iff_eq] at h5
    have e1 : it.1.hasType MidiTrackDeltas.trackPath = false := by
      simp [Delta.hasType, h5]; decide
    have e2 : it.1.hasType MidiTrackDeltas.trackColour = false := by
      simp [Delta.hasType, h5]; decide
    have e3 : it.1.hasType MidiTrackDeltas.trackInstrument = false := by
      simp [Delta.hasType, h5]; decide
    have e4 : it.1.hasType MidiTrackDeltas.trackController = false := by
      simp [Delta.hasType, h5]; decide
    have e5 : it.1.hasType AutoSequenceDeltas.eventsAdded = true := by
      simp [Delta.hasType, h5]
    simp only [AutomationTrackNode.resetStateStep, e1, e2, e3, e4, e5,
      if_true, if_false, Bool.false_eq_true, resetEventsDelta_fst_events]
  · simp only [AutomationTrackNode.resetStateStep, AutomationTrackNode.resetPathDelta,
      AutomationTrackNode.resetColourDelta, AutomationTrackNode.resetInstrumentDelta,
      AutomationTrackNode.resetControllerDelta, AutomationTrackNode.resetEventsDelta,
      AutomationTrackNode.resetClipsDelta, AutomationTrackNode.setXPath,
      AutomationTrackNode.setTrackColour, AutomationTrackNode.setTrackInstrumentId,
      AutomationTrackNode.setTrackControllerNumber, h5]
    split_ifs <;> first | rfl | (exfalso; assumption)

lemma resetStateStep_fst_clips (s : AutomationTrackNode) (b : Bool)
    (it : Delta × SerializedData) :
    ((AutomationTrackNode.resetStateStep (s, b) it).1).pattern.clips =
      if it.1.hasType PatternDeltas.clipsAdded then
        (it.2.children.filter (fun c => c.hasType Serialization.Midi.clip)).map
          Clip.deserialize
      else s.pattern.clips := by
  by_cases h6 : it.1.hasType PatternDeltas.clipsAdded
  · simp only [Delta.hasType, beq_iff_eq] at h6
    have e1 : it.1.hasType MidiTrackDeltas.trackPath = false := by
      simp [Delta.hasType, h6]; decide
    have e2 : it.1.hasType MidiTrackDeltas.trackColour = false := by
      simp [Delta.hasType, h6]; decide
    have e3 : it.1.hasType MidiTrackDeltas.trackInstrument = false := by
      simp [Delta.hasType, h6]; decide
    have e4 : it.1.hasType MidiTrackDeltas.trackController = false := by
      simp [Delta.hasType, h6]; decide
    have e5 : it.1.hasType AutoSequenceDeltas.eventsAdded = false := by
      simp [Delta.hasType, h6]; decide
    have e6 : it.1.hasType PatternDeltas.clipsAdded = true := by
      simp [Delta.hasType, h6]
    simp only [AutomationTrackNode.resetStateStep, e1, e2, e3, e4, e5, e6,
      if_true, if_false, Bool.false_eq_true, resetClipsDelta_fst_clips]
  · simp only [AutomationTrackNode.resetStateStep, AutomationTrackNode.resetPathDelta,
      AutomationTrackNode.resetColourDelta, AutomationTrackNode.resetInstrumentDelta,
      AutomationTrackNode.resetControllerDelta, AutomationTrackNode.resetEventsDelta,
      AutomationTrackNode.resetClipsDelta, AutomationTrackNode.setXPath,
      AutomationTrackNode.setTrackColour, AutomationTrackNode.setTrackInstrumentId,
      AutomationTrackNode.setTrackControllerNumber, h6]
    split_ifs <;> first | rfl | (exfalso; assumption)

lemma resetStateStep_fst_deltas (s : AutomationTrackNode) (b : Bool)
    (it : Delta × SerializedData) :
    ((AutomationTrackNode.resetStateStep (s, b) it).1).deltas = s.deltas := by
  simp only [AutomationTrackNode.resetStateStep, AutomationTrackNode.resetPathDelta,
    AutomationTrackNode.resetColourDelta, AutomationTrackNode.resetInstrumentDelta,
    AutomationTrackNode.resetControllerDelta, AutomationTrackNode.resetEventsDelta,
    AutomationTrackNode.resetClipsDelta, AutomationTrackNode.setXPath,
    AutomationTrackNode.setTrackColour, AutomationTrackNode.setTrackInstrumentId,
    AutomationTrackNode.setTrackControllerNumber]
  split_ifs <;> first | rfl | (exfalso; simp_all [Delta.hasType, beq_iff_eq, MidiTrackDeltas.trackPath,
        MidiTrackDeltas.trackColour, MidiTrackDeltas.trackInstrument,
        MidiTrackDeltas.trackController, AutoSequenceDeltas.eventsAdded,
        PatternDeltas.clipsAdded])

lemma resetStateStep_unknown (acc : AutomationTrackNode × Bool)
    (it : Delta × SerializedData) (h : ¬ it.1.type ∈ canonicalKinds) :
    AutomationTrackNode.resetStateStep acc it = acc := by
  simp only [canonicalKinds, List.mem_cons, List.not_mem_nil, or_false, not_or] at h
  simp [AutomationTrackNode.resetStateStep, Delta.hasType, h.1, h.2.1, h.2.2.1,
    h.2.2.2.1, h.2.2.2.2.1, h.2.2.2.2.2]

lemma resetStateStep_fst_name' (acc : AutomationTrackNode × Bool)
    (it : Delta × SerializedData) :
    ((AutomationTrackNode.resetStateStep acc it).1).name =
      if it.1.hasType MidiTrackDeltas.trackPath then
        (it.2.getProperty Serialization.VCS.delta).asString
      else acc.1.name :=
  resetStateStep_fst_name acc.1 acc.2 it

lemma resetStateStep_fst_colour' (acc : AutomationTrackNode × Bool)
    (it : Delta × SerializedData) :
    ((AutomationTrackNode.resetStateStep acc it).1).colour =
      if it.1.hasType MidiTrackDeltas.trackColour then
        Colour.fromString ((it.2.getProperty Serialization.VCS.delta).asString)
      else acc.1.colour :=
  resetStateStep_fst_colour acc.1 acc.2 it

lemma resetStateStep_fst_instrumentId' (acc : AutomationTrackNode × Bool)
    (it : Delta × SerializedData) :
    ((AutomationTrackNode.resetStateStep acc it).1).instrumentId =
      if it.1.hasType MidiTrackDeltas.trackInstrument then
        (it.2.getProperty Serialization.VCS.delta).asString
      else acc.1.instrumentId :=
  resetStateStep_fst_instrumentId acc.1 acc.2 it

lemma resetStateStep_fst_controllerNumber' (acc : AutomationTrackNode × Bool)
    (it : Delta × SerializedData) :
    ((AutomationTrackNode.resetStateStep acc it).1).controllerNumber =
      if it.1.hasType MidiTrackDeltas.trackController then
        (it.2.getProperty Serialization.VCS.delta).asInt
      else acc.1.controllerNumber :=
  resetStateStep_fst_controllerNumber acc.1 acc.2 it

lemma resetStateStep_fst_events' (acc : AutomationTrackNode × Bool)
    (it : Delta × SerializedData) :
    ((AutomationTrackNode.resetStateStep acc it).1).sequence.events =
      if it.1.hasType AutoSequenceDeltas.eventsAdded then
        (it.2.children.filter (fun c => c.hasType Serialization.Midi.automationEvent)).map
          AutomationEvent.deserialize
      else acc.1.sequence.events :=
  resetStateStep_fst_events acc.1 acc.2 it

lemma resetStateStep_fst_clips' (acc : AutomationTrackNode × Bool)
    (it : Delta × SerializedData) :
    ((AutomationTrackNode.resetStateStep acc it).1).pattern.clips =
      if it.1.hasType PatternDeltas.clipsAdded then
        (it.2.children.filter (fun c => c.hasType Serialization.Midi.clip)).map
          Clip.deserialize
      else acc.1.pattern.clips :=
  resetStateStep_fst_clips acc.1 acc.2 it

lemma resetStateStep_fst_deltas' (acc : AutomationTrackNode × Bool)
    (it : Delta × SerializedData) :
    ((AutomationTrackNode.resetStateStep acc it).1).deltas = acc.1.deltas :=
  resetStateStep_fst_deltas acc.1 acc.2 it

lemma resetFold_name (items : List (Delta × SerializedData)) :
    ∀ acc : AutomationTrackNode × Bool,
    ((items.foldl AutomationTrackNode.resetStateStep acc).1).name =
      match lastPayloadFor items MidiTrackDeltas.trackPath with
      | some d => (d.getProperty Serialization.VCS.delta).asString
      | none => acc.1.name := by
  induction items with
  | nil => intro acc; rfl
  | cons it rest ih =>
    intro acc
    rw [List.foldl_cons, ih (AutomationTrackNode.resetStateStep acc it),
      resetStateStep_fst_name']
    cases hl : lastPayloadFor rest MidiTrackDeltas.trackPath with
    | some d => simp [lastPayloadFor, hl]
    | none =>
      by_cases hk : it.1.hasType MidiTrackDeltas.trackPath <;>
        simp [lastPayloadFor, hl, hk]

lemma resetFold_colour (items : List (Delta × SerializedData)) :
    ∀ acc : AutomationTrackNode × Bool,
    ((items.foldl AutomationTrackNode.resetStateStep acc).1).colour =
      match lastPayloadFor items MidiTrackDeltas.trackColour with
      | some d => Colour.fromString ((d.getProperty Serialization.VCS.delta).asString)
      | none => acc.1.colour := by
  induction items with
  | nil => intro acc; rfl
  | cons it rest ih =>
    intro acc
    rw [List.foldl_cons, ih (AutomationTrackNode.resetStateStep acc it),
      resetStateStep_fst_colour']
    cases hl : lastPayloadFor rest MidiTrackDeltas.trackColour with
    | some d => simp [lastPayloadFor, hl]
    | none =>
      by_cases hk : it.1.hasType MidiTrackDeltas.trackColour <;>
        simp [lastPayloadFor, hl, hk]

lemma resetFold_instrumentId (items : List (Delta × SerializedData)) :
    ∀ acc : AutomationTrackNode × Bool,
    ((items.foldl AutomationTrackNode.resetStateStep acc).1).instrumentId =
      match lastPayloadFor items MidiTrackDeltas.trackInstrument with
      | some d => (d.getProperty Serialization.VCS.delta).asString
      | none => acc.1.instrumentId := by
  induction items with
  | nil => intro acc; rfl
  | cons it rest ih =>
    intro acc
    rw [List.foldl_cons, ih (AutomationTrackNode.resetStateStep acc it),
      resetStateStep_fst_instrumentId']
    cases hl : lastPayloadFor rest MidiTrackDeltas.trackInstrument with
    | some d => simp [lastPayloadFor, hl]
    | none =>
      by_cases hk : it.1.hasType MidiTrackDeltas.trackInstrument <;>
        simp [lastPayloadFor, hl, hk]

lemma resetFold_controllerNumber (items : List (Delta × SerializedData)) :
    ∀ acc : AutomationTrackNode × Bool,
    ((items.foldl AutomationTrackNode.resetStateStep acc).1).controllerNumber =
      match lastPayloadFor items MidiTrackDeltas.trackController with
      | some d => (d.getProperty Serialization.VCS.delta).asInt
      | none => acc.1.controllerNumber := by
  induction items with
  | nil => intro acc; rfl
  | cons it rest ih =>
    intro acc
    rw [List.foldl_cons, ih (AutomationTrackNode.resetStateStep acc it),
      resetStateStep_fst_controllerNumber']
    cases hl : lastPayloadFor rest MidiTrackDeltas.trackController with
    | some d => simp [lastPayloadFor, hl]
    | none =>
      by_cases hk : it.1.hasType MidiTrackDeltas.trackController <;>
        simp [lastPayloadFor, hl, hk]

lemma resetFold_events (items : List (Delta × SerializedData)) :
    ∀ acc : AutomationTrackNode × Bool,
    ((items.foldl AutomationTrackNode.resetStateStep acc).1).sequence.events =
      match lastPayloadFor items AutoSequenceDeltas.eventsAdded with
      | some d =>
        (d.children.filter (fun c => c.hasType Serialization.Midi.automationEvent)).map
          AutomationEvent.deserialize
      | none => acc.1.sequence.events := by
  induction items with
  | nil => intro acc; rfl
  | cons it rest ih =>
    intro acc
    rw [List.foldl_cons, ih (AutomationTrackNode.resetStateStep acc it),
      resetStateStep_fst_events']
    cases hl : lastPayloadFor rest AutoSequenceDeltas.eventsAdded with
    | some d => simp [lastPayloadFor, hl]
    | none =>
      by_cases hk : it.1.hasType AutoSequenceDeltas.eventsAdded <;>
        simp [lastPayloadFor, hl, hk]

lemma resetFold_clips (items : List (Delta × SerializedData)) :
    ∀ acc : AutomationTrackNode × Bool,
    ((items.foldl AutomationTrackNode.resetStateStep acc).1).pattern.clips =
      match lastPayloadFor items PatternDeltas.clipsAdded with
      | some d =>
        (d.children.filter (fun c => c.hasType Serialization.Midi.clip)).map
          Clip.deserialize
      | none => acc.1.pattern.clips := by
  induction items with
  | nil => intro acc; rfl
  | cons it rest ih =>
    intro acc
    rw [List.foldl_cons, ih (AutomationTrackNode.resetStateStep acc it),
      resetStateStep_fst_clips']
    cases hl : lastPayloadFor rest PatternDeltas.clipsAdded with
    | some d => simp [lastPayloadFor, hl]
    | none =>
      by_cases hk : it.1.hasType PatternDeltas.clipsAdded <;>
        simp [lastPayloadFor, hl, hk]

lemma resetFold_deltas (items : List (Delta × SerializedData)) :
    ∀ acc : AutomationTrackNode × Bool,
    ((items.foldl AutomationTrackNode.resetStateStep acc).1).deltas = acc.1.deltas := by
  induction items with
  | nil => intro acc; rfl
  | cons it rest ih =>
    intro acc
    rw [List.foldl_cons, ih (AutomationTrackNode.resetStateStep acc it),
      resetStateStep_fst_deltas']

lemma resetFold_unknown (items : List (Delta × SerializedData))
    (h : ∀ it ∈ items, ¬ it.1.type ∈ canonicalKinds) :
    ∀ acc : AutomationTrackNode × Bool,
    items.foldl AutomationTrackNode.resetStateStep acc = acc := by
  induction items with
  | nil => intro acc; rfl
  | cons it rest ih =>
    intro acc
    rw [List.foldl_cons,
      resetStateStep_unknown acc it (h it (List.mem_cons_self _ _)),
      ih (fun x hx => h x (List.mem_cons_of_mem _ hx))]

lemma set_self_of_getElem {α : Type} {l : List α} {i : Nat} {a : α}
    (h : l[i]? = some a) : l.set i a = l := by
  induction l generalizing i with
  | nil => simp at h
  | cons x xs ih =>
    cases i with
    | zero =>
      simp only [List.getElem?_cons_zero, Option.some.injEq] at h
      simp [h]
    | succ n =>
      simp only [List.getElem?_cons_succ] at h
      simp [ih h]

/-- C10: `resetEventsDelta` deserializes only the payload children
carrying the automation-event type tag: the resulting sequence holds
exactly one event per automation-event-tagged child, in payload order,
and children with any other tag are silently ignored. -/
theorem resetEventsDelta_filters_children (s : AutomationTrackNode)
    (d : SerializedData) :
    ((s.resetEventsDelta d).1).sequence.events =
      (d.children.filter (fun c => c.hasType Serialization.Midi.automationEvent)).map
        AutomationEvent.deserialize :=
  resetEventsDelta_fst_events s d

/-- C5 counterexample: on a payload with one child whose tag is not the
automation-event tag, `resetEventsDelta` does not insert one event per
child node of the payload — the foreign-tagged child is skipped, so
the resulting sequence is empty while the payload has one child. -/
theorem resetEventsDelta_perChild_counterexample :
    ¬ ((((AutomationTrackNode.create "t").resetEventsDelta
          ⟨AutoSequenceDeltas.eventsAdded, [], [⟨"bogus", [], []⟩]⟩).1).sequence.events =
        ([⟨"bogus", [], []⟩] : List SerializedData).map AutomationEvent.deserialize) := by
  intro h
  have hl := congrArg List.length h
  rw [resetEventsDelta_fst_events] at hl
  simp [SerializedData.hasType, Serialization.Midi.automationEvent] at hl

/-- C5 (amended): `resetEventsDelta` first clears the local sequence,
then inserts one deserialized event per automation-event-tagged child
node of the payload, in document order, and recomputes the derived
beat-range bound exactly once, not once per inserted item. -/
theorem resetEventsDelta_clear_insert_recompute_once (s : AutomationTrackNode)
    (d : SerializedData) :
    ((s.resetEventsDelta d).1).sequence.events =
      (d.children.filter (fun c => c.hasType Serialization.Midi.automationEvent)).map
        AutomationEvent.deserialize ∧
    ((s.resetEventsDelta d).1).sequence.beatRangeRecomputeCount =
      s.sequence.beatRangeRecomputeCount + 1 :=
  ⟨resetEventsDelta_fst_events s d, resetEventsDelta_fst_count s d⟩

/-- C4: each scalar reset routine decodes the single `delta` property
of the payload and applies it via the corresponding setter, but the
colour routine invokes its setter (observable as a dispatched change
notification) only when the decoded colour differs from the current
track colour, whereas the path and instrument-id routines always
invoke their setters — dispatching a change notification even when the
decoded value equals the current one. -/
theorem scalarReset_setter_invocation (s : AutomationTrackNode) (d : SerializedData) :
    (((s.resetColourDelta d).1).colour =
        Colour.fromString ((d.getProperty Serialization.VCS.delta).asString)) ∧
    (((s.resetColourDelta d).1).dispatchedChanges =
        if Colour.fromString ((d.getProperty Serialization.VCS.delta).asString) = s.colour
        then s.dispatchedChanges
        else s.dispatchedChanges + 1) ∧
    (((s.resetPathDelta d).1).name =
        (d.getProperty Serialization.VCS.delta).asString) ∧
    (((s.resetPathDelta d).1).dispatchedChanges = s.dispatchedChanges + 1) ∧
    (((s.resetInstrumentDelta d).1).instrumentId =
        (d.getProperty Serialization.VCS.delta).asString) ∧
    (((s.resetInstrumentDelta d).1).dispatchedChanges = s.dispatchedChanges + 1) := by
  refine ⟨?_, ?_, rfl, rfl, rfl, rfl⟩ <;>
  · by_cases hc :
      Colour.fromString ((d.getProperty Serialization.VCS.delta).asString) = s.colour <;>
      simp [AutomationTrackNode.resetColourDelta, AutomationTrackNode.setTrackColour,
        AutomationTrackNode.getTrackColour, hc]

/-- C2 counterexample: a foreign item holding one delta whose kind is
none of the six declared kinds is silently skipped by `resetStateTo`:
no contract-violation fault fires (the flag is `false`) and the state
is left unchanged, contradicting the claim that the reset dispatch
path raises a fault for unknown kinds. -/
theorem resetStateTo_unknownKind_counterexample :
    ((AutomationTrackNode.create "t").resetStateTo
        ⟨[(⟨"", "bogus", SerializedData.empty⟩, SerializedData.empty)]⟩).2 = false ∧
    ((AutomationTrackNode.create "t").resetStateTo
        ⟨[(⟨"", "bogus", SerializedData.empty⟩, SerializedData.empty)]⟩).1 =
      AutomationTrackNode.create "t" := by
  constructor <;> rfl

/-- C2 (amended): `getDeltaData` on a delta whose kind matches none of
the six declared kinds raises the contract-violation fault
(`jassertfalse`, the `true` flag) and returns the empty tree; the
dispatch inside `resetStateTo`, by contrast, silently skips every
foreign delta of unknown kind: it raises no fault and leaves the local
state entirely unchanged. -/
theorem unknownKind_dispatch (s : AutomationTrackNode) (i : Nat) (d : Delta)
    (hd : s.deltas[i]? = some d) (hk : ¬ d.type ∈ canonicalKinds) :
    s.getDeltaData i = (SerializedData.empty, true) ∧
    (∀ F : ForeignItem, (∀ it ∈ F.items, ¬ it.1.type ∈ canonicalKinds) →
      s.resetStateTo F = (s, false)) := by
  constructor
  · simp only [canonicalKinds, List.mem_cons, List.not_mem_nil, or_false, not_or] at hk
    simp [AutomationTrackNode.getDeltaData, hd, Delta.hasType, hk.1, hk.2.1,
      hk.2.2.1, hk.2.2.2.1, hk.2.2.2.2.1, hk.2.2.2.2.2]
  · intro F hF
    exact resetFold_unknown F.items hF (s, false)

/-- C3: `resetStateTo` is idempotent — applying the same foreign item
twice in a row leaves the entity in the same observable state (track
path, colour, instrument id, controller number, event list, clip list)
as applying it once.  The foreign item is a value here, so its delta
payloads are the same at both calls. -/
theorem resetStateTo_idempotent (s : AutomationTrackNode) (F : ForeignItem) :
    ((((s.resetStateTo F).1).resetStateTo F).1).observableState =
      ((s.resetStateTo F).1).observableState := by
  simp only [AutomationTrackNode.observableState, AutomationTrackNode.resetStateTo,
    ObservableState.mk.injEq]
  refine ⟨?_, ?_, ?_, ?_, ?_, ?_⟩
  · rw [resetFold_name, resetFold_name]
    cases hl : lastPayloadFor F.items MidiTrackDeltas.trackPath <;> simp [hl]
  · rw [resetFold_colour, resetFold_colour]
    cases hl : lastPayloadFor F.items MidiTrackDeltas.trackColour <;> simp [hl]
  · rw [resetFold_instrumentId, resetFold_instrumentId]
    cases hl : lastPayloadFor F.items MidiTrackDeltas.trackInstrument <;> simp [hl]
  · rw [resetFold_controllerNumber, resetFold_controllerNumber]
    cases hl : lastPayloadFor F.items MidiTrackDeltas.trackController <;> simp [hl]
  · rw [resetFold_events, resetFold_events]
    cases hl : lastPayloadFor F.items AutoSequenceDeltas.eventsAdded <;> simp [hl]
  · rw [resetFold_clips, resetFold_clips]
    cases hl : lastPayloadFor F.items PatternDeltas.clipsAdded <;> simp [hl]

/-- Witness for `unknownKind_dispatch`: a node carrying one delta of
unknown kind `"bogus"` at index `0`. -/
theorem unknownKind_dispatch_witness :
    ({ AutomationTrackNode.create "t" with
        deltas := [⟨"", "bogus", SerializedData.empty⟩] } :
        AutomationTrackNode).getDeltaData 0 = (SerializedData.empty, true) ∧
    (∀ F : ForeignItem, (∀ it ∈ F.items, ¬ it.1.type ∈ canonicalKinds) →
      ({ AutomationTrackNode.create "t" with
          deltas := [⟨"", "bogus", SerializedData.empty⟩] } :
          AutomationTrackNode).resetStateTo F =
        ({ AutomationTrackNode.create "t" with
            deltas := [⟨"", "bogus", SerializedData.empty⟩] }, false)) :=
  unknownKind_dispatch _ 0 ⟨"", "bogus", SerializedData.empty⟩ rfl (by decide)

/-- C1: checkout correctness of `resetStateTo`.  For a foreign item
whose declared delta kinds are among the six declared kinds, each
occurring at most once: after `resetStateTo` returns, the local
entity's state equals the foreign item's decoded payload for every
delta kind present in the foreign item, and the state backing every
delta kind absent from the foreign item is unchanged. -/
theorem resetStateTo_checkout (s : AutomationTrackNode) (F : ForeignItem)
    (hnd : (F.items.map (fun x => x.1.type)).Nodup)
    (_hsub : ∀ it ∈ F.items, it.1.type ∈ canonicalKinds) :
    (∀ it ∈ F.items,
      (it.1.type = MidiTrackDeltas.trackPath →
        ((s.resetStateTo F).1).name =
          (it.2.getProperty Serialization.VCS.delta).asString) ∧
      (it.1.type = MidiTrackDeltas.trackColour →
        ((s.resetStateTo F).1).colour =
          Colour.fromString ((it.2.getProperty Serialization.VCS.delta).asString)) ∧
      (it.1.type = MidiTrackDeltas.trackInstrument →
        ((s.resetStateTo F).1).instrumentId =
          (it.2.getProperty Serialization.VCS.delta).asString) ∧
      (it.1.type = MidiTrackDeltas.trackController →
        ((s.resetStateTo F).1).controllerNumber =
          (it.2.getProperty Serialization.VCS.delta).asInt) ∧
      (it.1.type = AutoSequenceDeltas.eventsAdded →
        ((s.resetStateTo F).1).sequence.events =
          (it.2.children.filter
            (fun c => c.hasType Serialization.Midi.automationEvent)).map
            AutomationEvent.deserialize) ∧
      (it.1.type = PatternDeltas.clipsAdded →
        ((s.resetStateTo F).1).pattern.clips =
          (it.2.children.filter (fun c => c.hasType Serialization.Midi.clip)).map
            Clip.deserialize)) ∧
    ((∀ it ∈ F.items, ¬ it.1.type = MidiTrackDeltas.trackPath) →
      ((s.resetStateTo F).1).name = s.name) ∧
    ((∀ it ∈ F.items, ¬ it.1.type = MidiTrackDeltas.trackColour) →
      ((s.resetStateTo F).1).colour = s.colour) ∧
    ((∀ it ∈ F.items, ¬ it.1.type = MidiTrackDeltas.trackInstrument) →
      ((s.resetStateTo F).1).instrumentId = s.instrumentId) ∧
    ((∀ it ∈ F.items, ¬ it.1.type = MidiTrackDeltas.trackController) →
      ((s.resetStateTo F).1).controllerNumber = s.controllerNumber) ∧
    ((∀ it ∈ F.items, ¬ it.1.type = AutoSequenceDeltas.eventsAdded) →
      ((s.resetStateTo F).1).sequence.events = s.sequence.events) ∧
    ((∀ it ∈ F.items, ¬ it.1.type = PatternDeltas.clipsAdded) →
      ((s.resetStateTo F).1).pattern.clips = s.pattern.clips) := by
  refine ⟨?_, ?_, ?_, ?_, ?_, ?_, ?_⟩
  · intro it hit
    refine ⟨?_, ?_, ?_, ?_, ?_, ?_⟩ <;> intro hk
    · rw [AutomationTrackNode.resetStateTo, resetFold_name,
        lastPayloadFor_eq_some hit hk hnd]
    · rw [AutomationTrackNode.resetStateTo, resetFold_colour,
        lastPayloadFor_eq_some hit hk hnd]
    · rw [AutomationTrackNode.resetStateTo, resetFold_instrumentId,
        lastPayloadFor_eq_some hit hk hnd]
    · rw [AutomationTrackNode.resetStateTo, resetFold_controllerNumber,
        lastPayloadFor_eq_some hit hk hnd]
    · rw [AutomationTrackNode.resetStateTo, resetFold_events,
        lastPayloadFor_eq_some hit hk hnd]
    · rw [AutomationTrackNode.resetStateTo, resetFold_clips,
        lastPayloadFor_eq_some hit hk hnd]
  · intro habs
    rw [AutomationTrackNode.resetStateTo, resetFold_name,
      lastPayloadFor_eq_none habs]
  · intro habs
    rw [AutomationTrackNode.resetStateTo, resetFold_colour,
      lastPayloadFor_eq_none habs]
  · intro habs
    rw [AutomationTrackNode.resetStateTo, resetFold_instrumentId,
      lastPayloadFor_eq_none habs]
  · intro habs
    rw [AutomationTrackNode.resetStateTo, resetFold_controllerNumber,
      lastPayloadFor_eq_none habs]
  · intro habs
    rw [AutomationTrackNode.resetStateTo, resetFold_events,
      lastPayloadFor_eq_none habs]
  · intro habs
    rw [AutomationTrackNode.resetStateTo, resetFold_clips,
      lastPayloadFor_eq_none habs]

/-- A concrete foreign item for the checkout witness: a path delta
carrying `"Track B"` and a colour delta carrying `"FF00FF00"`. -/
def checkoutForeign : ForeignItem :=
  ⟨[ (⟨"", MidiTrackDeltas.trackPath, SerializedData.empty⟩,
      ⟨MidiTrackDeltas.trackPath, [(Serialization.VCS.delta, Var.str "Track B")], []⟩)
   , (⟨"", MidiTrackDeltas.trackColour, SerializedData.empty⟩,
      ⟨MidiTrackDeltas.trackColour,
        [(Serialization.VCS.delta, Var.str "FF00FF00")], []⟩) ]⟩

/-- Witness for `resetStateTo_checkout`: checking out a path and a
colour from a concrete foreign item sets both, and leaves the
instrument id (a kind absent from the foreign item) unchanged. -/
theorem resetStateTo_checkout_witness :
    (((AutomationTrackNode.create "Track A").resetStateTo checkoutForeign).1).name =
      "Track B" ∧
    (((AutomationTrackNode.create "Track A").resetStateTo checkoutForeign).1).colour =
      Colour.fromString "FF00FF00" ∧
    (((AutomationTrackNode.create "Track A").resetStateTo checkoutForeign).1).instrumentId =
      (AutomationTrackNode.create "Track A").instrumentId := by
  have h := resetStateTo_checkout (AutomationTrackNode.create "Track A")
    checkoutForeign (by decide) (by decide)
  refine ⟨?_, ?_, ?_⟩
  · exact (h.1 _ (List.mem_cons_self _ _)).1 rfl
  · exact (h.1 _ (List.mem_cons_of_mem _ (List.mem_cons_self _ _))).2.1 rfl
  · exact h.2.2.2.1 (by decide)

lemma refreshDelta_type (s : AutomationTrackNode) (d : Delta) :
    (s.refreshDelta d).type = d.type := by
  simp only [AutomationTrackNode.refreshDelta]
  split_ifs <;> rfl

lemma refreshDelta_payload (s : AutomationTrackNode) (d : Delta) :
    (s.refreshDelta d).payload = d.payload := by
  simp only [AutomationTrackNode.refreshDelta]
  split_ifs <;> rfl

lemma refreshDelta_scalar (s : AutomationTrackNode) (d : Delta)
    (h5 : ¬ d.type = AutoSequenceDeltas.eventsAdded)
    (h6 : ¬ d.type = PatternDeltas.clipsAdded) :
    s.refreshDelta d = d := by
  simp [AutomationTrackNode.refreshDelta, Delta.hasType, h5, h6]

lemma getDelta_some (s : AutomationTrackNode) (i : Nat) (d : Delta)
    (hd : s.deltas[i]? = some d) :
    s.getDelta i =
      ({ s with deltas := s.deltas.set i (s.refreshDelta d) },
        some (s.refreshDelta d)) := by
  simp [AutomationTrackNode.getDelta, hd]

lemma mapType_getElem (s : AutomationTrackNode) (i : Nat) (d : Delta)
    (hd : s.deltas[i]? = some d) :
    (s.deltas.map Delta.type)[i]? = some d.type := by
  rw [List.getElem?_map, hd]
  rfl

lemma getDelta_fst_mapType (s : AutomationTrackNode) (i : Nat) :
    (((s.getDelta i).1).deltas).map Delta.type = s.deltas.map Delta.type := by
  cases hd : s.deltas[i]? with
  | none => simp [AutomationTrackNode.getDelta, hd]
  | some d =>
    rw [getDelta_some s i d hd]
    simp only [List.map_set, refreshDelta_type]
    exact set_self_of_getElem (mapType_getElem s i d hd)

lemma getDelta_fst_mapPayload (s : AutomationTrackNode) (i : Nat) :
    (((s.getDelta i).1).deltas).map Delta.payload = s.deltas.map Delta.payload := by
  cases hd : s.deltas[i]? with
  | none => simp [AutomationTrackNode.getDelta, hd]
  | some d =>
    rw [getDelta_some s i d hd]
    simp only [List.map_set, refreshDelta_payload]
    apply set_self_of_getElem
    rw [List.getElem?_map, hd]
    rfl

/-- C6: an `AutomationTrackNode` declares exactly six deltas whose
kinds are, in order: trackPath, trackColour, trackInstrument,
trackController, eventsAdded, clipsAdded.  The count and kind-order
are fixed at construction, `getDelta i` returns the delta of the
`i`-th declared kind, and the layout is stable across `getDelta`,
`resetStateTo`, every scalar setter and the structural reset
routines. -/
theorem delta_layout (nm : String) (s : AutomationTrackNode) (i : Nat)
    (hshape : s.deltas.map Delta.type = canonicalKinds) :
    ((AutomationTrackNode.create nm).deltas.map Delta.type = canonicalKinds) ∧
    ((AutomationTrackNode.create nm).getNumDeltas = 6) ∧
    (s.getNumDeltas = 6) ∧
    (i < 6 → ((s.getDelta i).2).map Delta.type = canonicalKinds[i]?) ∧
    (((s.getDelta i).1).deltas.map Delta.type = canonicalKinds) ∧
    (∀ F : ForeignItem, ((s.resetStateTo F).1).deltas.map Delta.type = canonicalKinds) ∧
    (∀ p u, (s.setXPath p u).deltas.map Delta.type = canonicalKinds) ∧
    (∀ c u, (s.setTrackColour c u).deltas.map Delta.type = canonicalKinds) ∧
    (∀ x u, (s.setTrackInstrumentId x u).deltas.map Delta.type = canonicalKinds) ∧
    (∀ n u, (s.setTrackControllerNumber n u).deltas.map Delta.type = canonicalKinds) ∧
    (∀ dd, ((s.resetEventsDelta dd).1).deltas.map Delta.type = canonicalKinds) ∧
    (∀ dd, ((s.resetClipsDelta dd).1).deltas.map Delta.type = canonicalKinds) := by
  have hlen : s.deltas.length = 6 := by
    have h := congrArg List.length hshape
    simpa [canonicalKinds] using h
  refine ⟨rfl, rfl, hlen, ?_, ?_, ?_, fun p u => hshape, fun c u => hshape,
    fun x u => hshape, fun n u => hshape, fun dd => hshape, fun dd => hshape⟩
  · intro hi
    cases hd : s.deltas[i]? with
    | none =>
      rw [List.getElem?_eq_none_iff, hlen] at hd
      omega
    | some d =>
      rw [getDelta_some s i d hd]
      rw [← hshape, List.getElem?_map, hd]
      simp [refreshDelta_type]
  · rw [getDelta_fst_mapType, hshape]
  · intro F
    rw [AutomationTrackNode.resetStateTo, resetFold_deltas, hshape]

/-- Witness for `delta_layout` at a freshly constructed node and
index `0`. -/
theorem delta_layout_witness :
    (((AutomationTrackNode.create "w").getDelta 0).2).map Delta.type =
      canonicalKinds[0]? ∧
    (AutomationTrackNode.create "w").getNumDeltas = 6 := by
  have h := delta_layout "w" (AutomationTrackNode.create "w") 0 (by decide)
  exact ⟨h.2.2.2.1 (by decide), h.2.1⟩

lemma appendChild_foldl {α : Type} (f : α → SerializedData) (xs : List α) :
    ∀ t : SerializedData,
    xs.foldl (fun tree x => tree.appendChild (f x)) t =
      ⟨t.tag, t.props, t.children ++ xs.map f⟩ := by
  induction xs with
  | nil =>
    intro t
    cases t
    rw [List.map_nil, List.append_nil]
    rfl
  | cons x rest ih =>
    intro t
    rw [List.foldl_cons, ih]
    simp [SerializedData.appendChild]

lemma serializeEventsDelta_eq (s : AutomationTrackNode) :
    s.serializeEventsDelta =
      ⟨AutoSequenceDeltas.eventsAdded, [],
        s.sequence.events.map AutomationEvent.serialize⟩ := by
  rw [AutomationTrackNode.serializeEventsDelta, appendChild_foldl]
  rfl

lemma serializeClipsDelta_eq (s : AutomationTrackNode) :
    s.serializeClipsDelta =
      ⟨PatternDeltas.clipsAdded, [], s.pattern.clips.map Clip.serialize⟩ := by
  rw [AutomationTrackNode.serializeClipsDelta, appendChild_foldl]
  rfl

/-- C7: `getDeltaData` dispatches on the stored delta's kind: each of
the four scalar kinds produces a tree carrying the single `delta`
property holding the scalar value (track name, colour string,
instrument id, controller number) and no children, and each structural
kind produces a tree with no properties and exactly one appended child
per contained item (event or clip), each child produced by that item's
own serialization.  No contract violation fires on any of the six
kinds. -/
theorem getDeltaData_shapes (s : AutomationTrackNode) (i : Nat) (d : Delta)
    (hd : s.deltas[i]? = some d) :
    (d.type = MidiTrackDeltas.trackPath →
      s.getDeltaData i =
        (⟨MidiTrackDeltas.trackPath,
          [(Serialization.VCS.delta, Var.str s.name)], []⟩, false)) ∧
    (d.type = MidiTrackDeltas.trackColour →
      s.getDeltaData i =
        (⟨MidiTrackDeltas.trackColour,
          [(Serialization.VCS.delta, Var.str s.colour.toString)], []⟩, false)) ∧
    (d.type = MidiTrackDeltas.trackInstrument →
      s.getDeltaData i =
        (⟨MidiTrackDeltas.trackInstrument,
          [(Serialization.VCS.delta, Var.str s.instrumentId)], []⟩, false)) ∧
    (d.type = MidiTrackDeltas.trackController →
      s.getDeltaData i =
        (⟨MidiTrackDeltas.trackController,
          [(Serialization.VCS.delta, Var.int s.controllerNumber)], []⟩, false)) ∧
    (d.type = AutoSequenceDeltas.eventsAdded →
      s.getDeltaData i =
        (⟨AutoSequenceDeltas.eventsAdded, [],
          s.sequence.events.map AutomationEvent.serialize⟩, false)) ∧
    (d.type = PatternDeltas.clipsAdded →
      s.getDeltaData i =
        (⟨PatternDeltas.clipsAdded, [],
          s.pattern.clips.map Clip.serialize⟩, false)) := by
  refine ⟨?_, ?_, ?_, ?_, ?_, ?_⟩ <;> intro hk
  · have e1 : d.hasType MidiTrackDeltas.trackPath = true := by
      simp [Delta.hasType, hk]
    simp [AutomationTrackNode.getDeltaData, hd, e1,
      AutomationTrackNode.serializePathDelta, SerializedData.setProperty,
      AutomationTrackNode.getTrackName]
  · have e1 : d.hasType MidiTrackDeltas.trackPath = false := by
      simp [Delta.hasType, hk]; decide
    have e2 : d.hasType MidiTrackDeltas.trackColour = true := by
      simp [Delta.hasType, hk]
    simp [AutomationTrackNode.getDeltaData, hd, e1, e2,
      AutomationTrackNode.serializeColourDelta, SerializedData.setProperty,
      AutomationTrackNode.getTrackColour]
  · have e1 : d.hasType MidiTrackDeltas.trackPath = false := by
      simp [Delta.hasType, hk]; decide
    have e2 : d.hasType MidiTrackDeltas.trackColour = false := by
      simp [Delta.hasType, hk]; decide
    have e3 : d.hasType MidiTrackDeltas.trackInstrument = true := by
      simp [Delta.hasType, hk]
    simp [AutomationTrackNode.getDeltaData, hd, e1, e2, e3,
      AutomationTrackNode.serializeInstrumentDelta, SerializedData.setProperty,
      AutomationTrackNode.getTrackInstrumentId]
  · have e1 : d.hasType MidiTrackDeltas.trackPath = false := by
      simp [Delta.hasType, hk]; decide
    have e2 : d.hasType MidiTrackDeltas.trackColour = false := by
      simp [Delta.hasType, hk]; decide
    have e3 : d.hasType MidiTrackDeltas.trackInstrument = false := by
      simp [Delta.hasType, hk]; decide
    have e4 : d.hasType MidiTrackDeltas.trackController = true := by
      simp [Delta.hasType, hk]
    simp [AutomationTrackNode.getDeltaData, hd, e1, e2, e3, e4,
      AutomationTrackNode.serializeControllerDelta, SerializedData.setProperty,
      AutomationTrackNode.getTrackControllerNumber]
  · have e1 : d.hasType MidiTrackDeltas.trackPath = false := by
      simp [Delta.hasType, hk]; decide
    have e2 : d.hasType MidiTrackDeltas.trackColour = false := by
      simp [Delta.hasType, hk]; decide
    have e3 : d.hasType MidiTrackDeltas.trackInstrument = false := by
      simp [Delta.hasType, hk]; decide
    have e4 : d.hasType MidiTrackDeltas.trackController = false := by
      simp [Delta.hasType, hk]; decide
    have e5 : d.hasType AutoSequenceDeltas.eventsAdded = true := by
      simp [Delta.hasType, hk]
    simp [AutomationTrackNode.getDeltaData, hd, e1, e2, e3, e4, e5,
      serializeEventsDelta_eq]
  · have e1 : d.hasType MidiTrackDeltas.trackPath = false := by
      simp [Delta.hasType, hk]; decide
    have e2 : d.hasType MidiTrackDeltas.trackColour = false := by
      simp [Delta.hasType, hk]; decide
    have e3 : d.hasType MidiTrackDeltas.trackInstrument = false := by
      simp [Delta.hasType, hk]; decide
    have e4 : d.hasType MidiTrackDeltas.trackController = false := by
      simp [Delta.hasType, hk]; decide
    have e5 : d.hasType AutoSequenceDeltas.eventsAdded = false := by
      simp [Delta.hasType, hk]; decide
    have e6 : d.hasType PatternDeltas.clipsAdded = true := by
      simp [Delta.hasType, hk]
    simp [AutomationTrackNode.getDeltaData, hd, e1, e2, e3, e4, e5, e6,
      serializeClipsDelta_eq]

/-- Witness for `getDeltaData_shapes` at a fresh node's path delta. -/
theorem getDeltaData_shapes_witness :
    (AutomationTrackNode.create "Track A").getDeltaData 0 =
      (⟨MidiTrackDeltas.trackPath,
        [(Serialization.VCS.delta, Var.str "Track A")], []⟩, false) :=
  (getDeltaData_shapes (AutomationTrackNode.create "Track A") 0
    ⟨"", MidiTrackDeltas.trackPath, SerializedData.empty⟩ rfl).1 rfl

/-- C8: `getDelta` at the events-added delta sets that delta's
description to the `"empty sequence"` sentinel when the sequence holds
zero events, and to a description containing the event count `N`
(rendered as `"N events"`) when it holds `N > 0` events; symmetrically
for the clips-added delta over the pattern's clip count (`"empty
pattern"` / `"N clips"`). -/
theorem getDelta_description (s : AutomationTrackNode) (i : Nat) (d : Delta)
    (hd : s.deltas[i]? = some d) :
    (d.type = AutoSequenceDeltas.eventsAdded →
      (s.sequence.events.length = 0 →
        ((s.getDelta i).2).map Delta.description = some "empty sequence") ∧
      (0 < s.sequence.events.length →
        ((s.getDelta i).2).map Delta.description =
          some (toString s.sequence.events.length ++ " events"))) ∧
    (d.type = PatternDeltas.clipsAdded →
      (s.pattern.clips.length = 0 →
        ((s.getDelta i).2).map Delta.description = some "empty pattern") ∧
      (0 < s.pattern.clips.length →
        ((s.getDelta i).2).map Delta.description =
          some (toString s.pattern.clips.length ++ " clips"))) := by
  rw [getDelta_some s i d hd]
  constructor
  · intro hk
    have e5 : d.hasType AutoSequenceDeltas.eventsAdded = true := by
      simp [Delta.hasType, hk]
    constructor
    · intro h0
      simp [AutomationTrackNode.refreshDelta, e5, AutomationSequence.size, h0,
        Delta.setDescription]
    · intro hpos
      have hne : s.sequence.events.length ≠ 0 := Nat.pos_iff_ne_zero.mp hpos
      simp [AutomationTrackNode.refreshDelta, e5, AutomationSequence.size, hne,
        Delta.setDescription]
  · intro hk
    have e5 : d.hasType AutoSequenceDeltas.eventsAdded = false := by
      simp [Delta.hasType, hk]; decide
    have e6 : d.hasType PatternDeltas.clipsAdded = true := by
      simp [Delta.hasType, hk]
    constructor
    · intro h0
      simp [AutomationTrackNode.refreshDelta, e5, e6, Pattern.size, h0,
        Delta.setDescription]
    · intro hpos
      have hne : s.pattern.clips.length ≠ 0 := Nat.pos_iff_ne_zero.mp hpos
      simp [AutomationTrackNode.refreshDelta, e5, e6, Pattern.size, hne,
        Delta.setDescription]

/-- Witness for `getDelta_description`: a fresh node has an empty
sequence and an empty pattern and reports both sentinels. -/
theorem getDelta_description_witness :
    (((AutomationTrackNode.create "w8").getDelta 4).2).map Delta.description =
      some "empty sequence" ∧
    (((AutomationTrackNode.create "w8").getDelta 5).2).map Delta.description =
      some "empty pattern" :=
  ⟨((getDelta_description (AutomationTrackNode.create "w8") 4
      ⟨"", AutoSequenceDeltas.eventsAdded, SerializedData.empty⟩ rfl).1 rfl).1 rfl,
   ((getDelta_description (AutomationTrackNode.create "w8") 5
      ⟨"", PatternDeltas.clipsAdded, SerializedData.empty⟩ rfl).2 rfl).1 rfl⟩

/-- C9: `getDelta` is frame-preserving — it never changes the track's
domain state (path, colour, instrument id, controller number,
sequence, pattern), never dispatches a change notification, never
changes the delta count, any delta's kind or payload, or any delta
other than the one at the queried index; and when the queried delta's
kind is neither events-added nor clips-added (in particular for the
four scalar kinds) the node is returned entirely unchanged and the
stored delta is returned as is. -/
theorem getDelta_frame (s : AutomationTrackNode) (i j : Nat) (d : Delta)
    (hd : s.deltas[i]? = some d) :
    ((s.getDelta i).1).name = s.name ∧
    ((s.getDelta i).1).colour = s.colour ∧
    ((s.getDelta i).1).instrumentId = s.instrumentId ∧
    ((s.getDelta i).1).controllerNumber = s.controllerNumber ∧
    ((s.getDelta i).1).sequence = s.sequence ∧
    ((s.getDelta i).1).pattern = s.pattern ∧
    ((s.getDelta i).1).dispatchedChanges = s.dispatchedChanges ∧
    ((s.getDelta i).1).getNumDeltas = s.getNumDeltas ∧
    (((s.getDelta i).1).deltas.map Delta.type = s.deltas.map Delta.type) ∧
    (((s.getDelta i).1).deltas.map Delta.payload = s.deltas.map Delta.payload) ∧
    (j ≠ i → ((s.getDelta i).1).deltas[j]? = s.deltas[j]?) ∧
    (¬ d.type = AutoSequenceDeltas.eventsAdded →
      ¬ d.type = PatternDeltas.clipsAdded →
      (s.getDelta i).1 = s ∧ (s.getDelta i).2 = some d) := by
  refine ⟨?_, ?_, ?_, ?_, ?_, ?_, ?_, ?_,
    getDelta_fst_mapType s i, getDelta_fst_mapPayload s i, ?_, ?_⟩
  · rw [getDelta_some s i d hd]
  · rw [getDelta_some s i d hd]
  · rw [getDelta_some s i d hd]
  · rw [getDelta_some s i d hd]
  · rw [getDelta_some s i d hd]
  · rw [getDelta_some s i d hd]
  · rw [getDelta_some s i d hd]
  · rw [getDelta_some s i d hd]
    simp [AutomationTrackNode.getNumDeltas]
  · intro hj
    rw [getDelta_some s i d hd]
    exact List.getElem?_set_ne (fun h => hj h.symm)
  · intro h5 h6
    rw [getDelta_some s i d hd, refreshDelta_scalar s d h5 h6,
      set_self_of_getElem hd]
    exact ⟨rfl, rfl⟩

/-- Witness for `getDelta_frame`: querying the path delta of a fresh
node leaves the node unchanged and the other deltas untouched. -/
theorem getDelta_frame_witness :
    ((AutomationTrackNode.create "w9").getDelta 0).1 =
      AutomationTrackNode.create "w9" ∧
    (((AutomationTrackNode.create "w9").getDelta 0).1).deltas[1]? =
      (AutomationTrackNode.create "w9").deltas[1]? := by
  have h := getDelta_frame (AutomationTrackNode.create "w9") 0 1
    ⟨"", MidiTrackDeltas.trackPath, SerializedData.empty⟩ rfl
  exact ⟨(h.2.2.2.2.2.2.2.2.2.2.2 (by decide) (by decide)).1,
    h.2.2.2.2.2.2.2.2.2.2.1 (by decide)⟩

end Helio
